import Mathlib

/-!
Verification of the geomapper flood-risk overlay program (`src/main.py`).

The program is a single-pass batch job: it parses `config.json`, loads a
flood-risk layer and a property (asset) layer from GeoJSON, reprojects the
asset layer to the risk layer's CRS, computes the geometric intersection
overlay, writes the at-risk features to `<plot_title>.json`, emits one line
`<command_read_out><count>`, and renders a composite plot.

Embedding notes.  Python-side pure logic (`extract_config`, the driver loop
of `main`, the report line) is translated directly from the source.  The
geospatial primitives the source delegates to a third-party library
(`gpd.overlay`, `to_crs`, `read_file`/`to_file`, matplotlib rendering) are
not part of this repository; they are modelled from the specification's
component contracts (sections 4.2 to 4.7), with each such definition marked
`Modelled from the spec:` in its doc comment.  Geometries are modelled as
integer points and convex polygons (the shapes the spec's scenarios
exercise); polygon-polygon intersection is outside the model.
-/

namespace Geomapper

/-- A JSON value, as produced by Python's `json.load`: null, booleans,
numbers (integers suffice for every value this program's model handles),
strings, arrays and objects.  Objects are member lists assumed key-unique,
matching a parsed Python dict. -/
inductive Json where
  | null
  | bool (b : Bool)
  | num (n : Int)
  | str (s : String)
  | arr (elems : List Json)
  | obj (members : List (String × Json))
deriving Repr

/-- Lookup of a key in an object's member list; models Python `dict.get(k)`
returning `None` for an absent key. -/
def getKey : List (String × Json) → String → Option Json
  | [], _ => none
  | kv :: rest, k => if kv.1 = k then some kv.2 else getKey rest k

/-- `d.get k`: the value bound to key `k` when `d` is an object, `none`
otherwise. -/
def Json.get : Json → String → Option Json
  | .obj kvs, k => getKey kvs k
  | _, _ => none

/-- One job descriptor, as built by `extract_config` (src/main.py:85-90):
the four values pulled out of one entry of the config's `inputs` array.
Values are kept as raw JSON, as Python's `item.get` returns them. -/
structure JobDescriptor where
  risk_layer_path : Json
  asset_layer_path : Json
  command_read_out : Json
  plot_title : Json
deriving Repr

/-- One iteration of the extraction loop (src/main.py:84-90): requires the
entry to be a dict (otherwise Python's `item.get` raises AttributeError,
modelled as `none`), and reads the four fields with empty-string default. -/
def extractItem : Json → Option JobDescriptor
  | .obj kvs =>
    some ⟨(getKey kvs "risk_layer_path").getD (.str ""),
          (getKey kvs "asset_layer_path").getD (.str ""),
          (getKey kvs "command_read_out").getD (.str ""),
          (getKey kvs "plot_title").getD (.str "")⟩
  | _ => none

/-- `extract_config` (src/main.py:70-92) after `json.load`: iterates over
`config.get('inputs', [])` collecting one descriptor per entry.  `none`
models the Python exceptions raised when the config is not a dict, when the
`inputs` value is not iterable, or when an iterated entry has no `.get`
(iterating a non-empty string yields characters, a non-empty dict yields
keys; both then fail, while the empty ones iterate zero times). -/
def extract_config : Json → Option (List JobDescriptor)
  | .obj kvs =>
    match getKey kvs "inputs" with
    | none => some []
    | some (.arr xs) => xs.mapM extractItem
    | some (.str s) => if s.isEmpty then some [] else none
    | some (.obj m) => if m.isEmpty then some [] else none
    | some _ => none
  | _ => none

/-- The driver loop of `main` (src/main.py:99-103): each iteration rebinds
the four local variables from the current descriptor, never consuming them
inside the loop, so only the binding of the final iteration survives;
`none` models the variables being unbound when the list is empty. -/
def loopBind (items : List JobDescriptor) : Option JobDescriptor :=
  items.foldl (fun _ item => some item) none

/-- The report line of src/main.py:121:
`print(command_read_out+str(len(at_risk_properties)))`. -/
def reportLine (command_read_out : String) (count : Nat) : String :=
  command_read_out ++ toString count

/-- A planar coordinate, integer-valued (the spec's scenarios use integer
coordinates only). -/
abbrev Pt := Int × Int

/-- Modelled from the spec: a feature geometry is either a point (asset
locations) or a convex polygon given by its vertex ring (risk areas), the
two shapes the spec's data model and scenarios exercise. -/
inductive Geometry where
  | point (p : Pt)
  | polygon (vs : List Pt)
deriving Repr, DecidableEq

/-- Signed cross product of `a - o` and `b - o`; its sign tells on which
side of the directed line `o → a` the point `b` lies. -/
def cross (o a b : Pt) : Int :=
  (a.1 - o.1) * (b.2 - o.2) - (a.2 - o.2) * (b.1 - o.1)

/-- The directed edge list of a vertex ring: each vertex paired with its
cyclic successor. -/
def edges (vs : List Pt) : List (Pt × Pt) :=
  vs.zip (vs.drop 1 ++ vs.take 1)

/-- Modelled from the spec: membership of a point in a convex polygon —
the point lies on the same side of (or on) every directed edge.  Rings
with fewer than three vertices denote no area. -/
def pointInPoly (p : Pt) (vs : List Pt) : Bool :=
  decide (3 ≤ vs.length) &&
    (((edges vs).all fun e => 0 ≤ cross e.1 e.2 p) ||
     ((edges vs).all fun e => cross e.1 e.2 p ≤ 0))

/-- Point membership in a geometry: equality for points, polygon
membership for polygons. -/
def memGeom (q : Pt) : Geometry → Bool
  | .point p => decide (q = p)
  | .polygon vs => pointInPoly q vs

/-- Modelled from the spec: the geometric intersection primitive of the
overlay contract (spec section 4.4) — `some` of the intersection region
when the two geometries overlap, `none` when they are disjoint.  A point
meets a point when they are equal, and a polygon when it lies inside it.
Polygon-polygon clipping is outside this model and yields `none`. -/
def geomIntersect : Geometry → Geometry → Option Geometry
  | .point p, .point q => if p = q then some (.point p) else none
  | .point p, .polygon vs => if pointInPoly p vs then some (.point p) else none
  | .polygon vs, .point p => if pointInPoly p vs then some (.point p) else none
  | .polygon _, .polygon _ => none

/-- A feature: one geometry plus its attribute fields (spec glossary). -/
structure Feature where
  geom : Geometry
  attrs : List (String × Json)
deriving Repr

/-- A geometry collection: an ordered feature sequence with one CRS tag
for the whole collection (spec section 3). -/
structure GeoCollection where
  crs : String
  features : List Feature
deriving Repr

/-- Attribute lookup by field name (first occurrence; attribute lists are
assumed key-unique, as columns of a dataframe are). -/
def getAttr : List (String × Json) → String → Option Json
  | [], _ => none
  | kv :: rest, k => if kv.1 = k then some kv.2 else getAttr rest k

/-- Modelled from the spec: attribute union of a base-side and a clip-side
field list where the clip side wins on a name collision (spec section
4.4) — base fields whose names also occur on the clip side are dropped,
then all clip fields follow. -/
def mergeAttrs : List (String × Json) → List (String × Json) → List (String × Json)
  | [], clipAttrs => clipAttrs
  | kv :: rest, clipAttrs =>
    if (getAttr clipAttrs kv.1).isSome then mergeAttrs rest clipAttrs
    else kv :: mergeAttrs rest clipAttrs

/-- Modelled from the spec: `gpd.overlay(df1, df2, how='intersection')`
per the contract of spec section 4.4 — for every pair of a `df1` (base)
feature and a `df2` (clip) feature whose geometries overlap, one output
feature carrying the intersection region and the merged attributes; pairs
that do not overlap contribute nothing. -/
def overlay (df1 df2 : GeoCollection) : GeoCollection :=
  ⟨df1.crs,
   df1.features.flatMap fun bf =>
     df2.features.filterMap fun cf =>
       (geomIntersect bf.geom cf.geom).map fun g => ⟨g, mergeAttrs bf.attrs cf.attrs⟩⟩

/-- `overlay_maps` (src/main.py:21-32): the asset layer is passed as the
base frame and the flood-risk layer as the clip frame. -/
def overlay_maps (flood_risk_gdf property_gdf : GeoCollection) : GeoCollection :=
  overlay property_gdf flood_risk_gdf

/-- Pointwise coordinate transform of a geometry. -/
def Geometry.mapPoints (f : Pt → Pt) : Geometry → Geometry
  | .point p => .point (f p)
  | .polygon vs => .polygon (vs.map f)

/-- Modelled from the spec: `to_crs` (spec section 4.3) — a no-op copy
when the collection already carries the target CRS, otherwise every
coordinate is transformed by the projection map `reproject` (the actual
cartographic math is the library's; the model keeps it abstract as a
function parameter) and the CRS tag becomes the target. -/
def toCrs (reproject : Pt → Pt) (gc : GeoCollection) (target : String) : GeoCollection :=
  if gc.crs = target then gc
  else ⟨target, gc.features.map fun f => ⟨f.geom.mapPoints reproject, f.attrs⟩⟩

/-- GeoJSON encoding of one coordinate pair. -/
def encodePt (p : Pt) : Json :=
  .arr [.num p.1, .num p.2]

/-- Modelled from the spec: GeoJSON encoding of a geometry (spec section
6) — a `Point` with its coordinate pair, or a `Polygon` with a single
vertex ring. -/
def encodeGeometry : Geometry → Json
  | .point p => .obj [("type", .str "Point"), ("coordinates", encodePt p)]
  | .polygon vs =>
    .obj [("type", .str "Polygon"), ("coordinates", .arr [.arr (vs.map encodePt)])]

/-- GeoJSON encoding of one feature: geometry plus a properties object. -/
def encodeFeature (f : Feature) : Json :=
  .obj [("type", .str "Feature"),
        ("geometry", encodeGeometry f.geom),
        ("properties", .obj f.attrs)]

/-- Modelled from the spec: `save_geojson` (src/main.py:35-42, contract in
spec section 4.5) — serialize the collection as a GeoJSON
FeatureCollection document. -/
def save_geojson (gdf : GeoCollection) : Json :=
  .obj [("type", .str "FeatureCollection"),
        ("features", .arr (gdf.features.map encodeFeature))]

/-- Decoding of one coordinate pair. -/
def decodePt : Json → Option Pt
  | .arr [.num x, .num y] => some (x, y)
  | _ => none

/-- Decoding of a GeoJSON geometry object; inverse of `encodeGeometry`. -/
def decodeGeometry : Json → Option Geometry
  | .obj kvs =>
    match getKey kvs "type", getKey kvs "coordinates" with
    | some (.str "Point"), some c => (decodePt c).map .point
    | some (.str "Polygon"), some (.arr [.arr ring]) =>
      (ring.mapM decodePt).map .polygon
    | _, _ => none
  | _ => none

/-- Decoding of a GeoJSON feature object; inverse of `encodeFeature`. -/
def decodeFeature : Json → Option Feature
  | .obj kvs =>
    match getKey kvs "geometry", getKey kvs "properties" with
    | some g, some (.obj attrs) => (decodeGeometry g).map (⟨·, attrs⟩)
    | _, _ => none
  | _ => none

/-- Modelled from the spec: `load_geojson` (src/main.py:9-18, contract in
spec section 4.2) — parse a GeoJSON FeatureCollection document into a
collection; a document without a CRS member carries the format's default
CRS WGS84, tagged "EPSG:4326" (spec section 6).  `none` models the
library's load failure on malformed content. -/
def load_geojson : Json → Option GeoCollection
  | .obj kvs =>
    match getKey kvs "features" with
    | some (.arr fs) => (fs.mapM decodeFeature).map (⟨"EPSG:4326", ·⟩)
    | _ => none
  | _ => none

/-- The observable result of the plotting step, as far as the model
reaches: which layers were composited and where the figure was saved. -/
structure RenderedPlot where
  floodFeatureCount : Nat
  propertyFeatureCount : Nat
  atRiskFeatureCount : Nat
  title : String
  savedPath : String
deriving Repr, DecidableEq

/-- Modelled from the spec: `plot_and_save_properties` (src/main.py:45-68,
contract in spec section 4.7) — composites the three layers, titles the
figure and saves it at the path equal to the title.  Raster drawing and
the basemap fetch are outside the model; the function is total, so it is
defined on every collection, the empty one included. -/
def plot_and_save_properties (flood_risk_gdf property_gdf at_risk_properties : GeoCollection)
    (plot_title : String) : RenderedPlot :=
  ⟨flood_risk_gdf.features.length, property_gdf.features.length,
   at_risk_properties.features.length, plot_title, plot_title⟩

/-- The abrupt terminations `main` can hit, named by their Python cause:
a config read/parse failure, the unbound-local error of src/main.py:105
when the loop never ran, a TypeError from a non-string configured value,
or a load failure on a layer path. -/
inductive MainError where
  | configError
  | unboundLocal
  | typeError
  | loadError
deriving Repr, DecidableEq

/-- The externally visible effects of a run, in program order: a layer
file opened, an output document written, a line printed, a figure
rendered. -/
inductive Event where
  | load (path : String)
  | write (path : String) (content : Json)
  | printLine (line : String)
  | render (title : String)
deriving Repr

/-- The values a successful run ends with. -/
structure Outcome where
  outputPath : String
  written : Json
  line : String
  plot : RenderedPlot
deriving Repr

/-- `main` (src/main.py:94-124) over a model file system `fs` mapping
paths to parsed file contents (the config is passed already parsed, and
`reproject` stands for the library's projection math, as in `toCrs`).
Returns the event trace produced before termination together with the
outcome or the error that aborted the run, in the source's order: config
extraction, the rebinding loop, output-path construction from
`plot_title`, the two layer loads, CRS normalization, overlay, write,
report, render. -/
def mainRun (fs : String → Option Json) (reproject : Pt → Pt) (config : Json) :
    List Event × Except MainError Outcome :=
  match extract_config config with
  | none => ([], .error .configError)
  | some config_items =>
    match loopBind config_items with
    | none => ([], .error .unboundLocal)
    | some item =>
      match item.plot_title with
      | .str plot_title =>
        let output_path := plot_title ++ ".json"
        match item.risk_layer_path with
        | .str risk_layer_path =>
          match (fs risk_layer_path).bind load_geojson with
          | none => ([.load risk_layer_path], .error .loadError)
          | some risk_layer_gdf =>
            match item.asset_layer_path with
            | .str asset_layer_path =>
              match (fs asset_layer_path).bind load_geojson with
              | none => ([.load risk_layer_path, .load asset_layer_path], .error .loadError)
              | some asset_gdf₀ =>
                let asset_gdf := toCrs reproject asset_gdf₀ risk_layer_gdf.crs
                let at_risk_properties := overlay_maps risk_layer_gdf asset_gdf
                let written := save_geojson at_risk_properties
                match item.command_read_out with
                | .str command_read_out =>
                  let line := reportLine command_read_out at_risk_properties.features.length
                  ([.load risk_layer_path, .load asset_layer_path,
                    .write output_path written, .printLine line, .render plot_title],
                   .ok ⟨output_path, written, line,
                        plot_and_save_properties risk_layer_gdf asset_gdf
                          at_risk_properties plot_title⟩)
                | _ =>
                  ([.load risk_layer_path, .load asset_layer_path,
                    .write output_path written], .error .typeError)
            | _ => ([.load risk_layer_path], .error .typeError)
        | _ => ([], .error .typeError)
      | _ => ([], .error .typeError)

/-- Statement-side description of one extracted descriptor, in the words
of the claim: each of the four fields is the entry's value when the key is
present and the empty string otherwise. -/
def descriptorOfEntry (entry : Json) : JobDescriptor :=
  ⟨(entry.get "risk_layer_path").getD (.str ""),
   (entry.get "asset_layer_path").getD (.str ""),
   (entry.get "command_read_out").getD (.str ""),
   (entry.get "plot_title").getD (.str "")⟩

lemma mapM_extractItem_of_objects (xs : List Json)
    (hobj : ∀ x ∈ xs, ∃ m, x = Json.obj m) :
    xs.mapM extractItem = some (xs.map descriptorOfEntry) := by
  induction xs with
  | nil => rfl
  | cons x t ih =>
    obtain ⟨m, rfl⟩ := hobj x (List.mem_cons_self x t)
    rw [List.mapM_cons, ih fun y hy => hobj y (List.mem_cons_of_mem _ hy)]
    rfl

lemma foldl_rebind_last (l : List JobDescriptor) (h : l ≠ []) :
    ∀ a : Option JobDescriptor, l.foldl (fun _ item => some item) a = some (l.getLast h) := by
  induction l with
  | nil => exact absurd rfl h
  | cons x t ih =>
    intro a
    cases t with
    | nil => simp
    | cons y t' =>
      rw [List.foldl_cons, ih (List.cons_ne_nil y t')]
      simp [List.getLast_cons]

/-- Claim C1: for every configuration with one or more job descriptors,
the driver loop of src/main.py:99-103 leaves bound exactly the fields of
the last descriptor — every later stage (load, overlay, write, report,
render in `mainRun`) consumes `loopBind`'s value, so only the final
configured job is processed, however many are configured. -/
theorem driver_binds_last_descriptor (items : List JobDescriptor) (h : items ≠ []) :
    loopBind items = some (items.getLast h) :=
  foldl_rebind_last items h none

/-- Witness for C1: with two configured descriptors, the second one is the
one left bound. -/
theorem driver_binds_last_descriptor_witness :
    loopBind [⟨.str "r1", .str "a1", .str "c1", .str "t1"⟩,
              ⟨.str "r2", .str "a2", .str "c2", .str "t2"⟩] =
      some ⟨.str "r2", .str "a2", .str "c2", .str "t2"⟩ :=
  driver_binds_last_descriptor
    [⟨.str "r1", .str "a1", .str "c1", .str "t1"⟩,
     ⟨.str "r2", .str "a2", .str "c2", .str "t2"⟩]
    (List.cons_ne_nil _ _)

/-- Claim C2: on a well-formed configuration object, `extract_config`
returns exactly one descriptor per entry of the `inputs` array (the empty
sequence when the key is absent), each descriptor reading its four fields
from the entry with empty-string fallback, so a partial entry never causes
a failure. -/
theorem extract_config_per_entry (kvs : List (String × Json)) :
    (getKey kvs "inputs" = none → extract_config (.obj kvs) = some []) ∧
    (∀ xs : List Json, getKey kvs "inputs" = some (.arr xs) →
      (∀ x ∈ xs, ∃ m, x = Json.obj m) →
      extract_config (.obj kvs) = some (xs.map descriptorOfEntry)) := by
  constructor
  · intro h
    simp [extract_config, h]
  · intro xs hx hobj
    simp only [extract_config, hx]
    exact mapM_extractItem_of_objects xs hobj

/-- Witness for C2: a single partial entry carrying only `plot_title`
extracts without failure, the other three fields defaulting to "". -/
theorem extract_config_per_entry_witness :
    extract_config (.obj [("inputs", .arr [.obj [("plot_title", .str "t")]])]) =
      some ([Json.obj [("plot_title", .str "t")]].map descriptorOfEntry) :=
  (extract_config_per_entry [("inputs", .arr [.obj [("plot_title", .str "t")]])]).2
    [Json.obj [("plot_title", .str "t")]] rfl
    (by
      intro x hx
      rw [List.mem_singleton] at hx
      exact ⟨_, hx⟩)

/-- Claim C5: the report line of src/main.py:121 is exactly the configured
prefix followed by the decimal representation of the count, with no
separator, for every prefix and every count. -/
theorem report_line_is_plain_concat (p : String) (n : Nat) :
    reportLine p n = p ++ Nat.repr n ∧
    (reportLine p n).length = p.length + (Nat.repr n).length := by
  refine ⟨rfl, ?_⟩
  simp [reportLine, toString, String.length_append]

/-- Claim C10: a configuration whose `inputs` array is empty or absent
makes the driver fail with the unbound-local error at output-path
construction (src/main.py:105) — the event trace is empty, so no layer
was opened and no file, line or image was produced. -/
theorem empty_inputs_aborts_unbound (fs : String → Option Json) (reproject : Pt → Pt)
    (kvs : List (String × Json))
    (h : getKey kvs "inputs" = none ∨ getKey kvs "inputs" = some (.arr [])) :
    mainRun fs reproject (.obj kvs) = ([], .error .unboundLocal) := by
  have he : extract_config (.obj kvs) = some [] := by
    rcases h with h | h
    · simp [extract_config, h]
    · simp only [extract_config, h]
      rfl
  simp [mainRun, he, loopBind]

/-- Witness for C10: a config without the `inputs` key aborts with the
unbound-local error and an empty effect trace. -/
theorem empty_inputs_aborts_unbound_witness :
    mainRun (fun _ => none) (fun p => p) (.obj [("plot_title", .str "x")]) =
      ([], .error .unboundLocal) :=
  empty_inputs_aborts_unbound (fun _ => none) (fun p => p)
    [("plot_title", .str "x")] (Or.inl rfl)

lemma getAttr_mergeAttrs (b c : List (String × Json)) (k : String) :
    getAttr (mergeAttrs b c) k =
      if (getAttr c k).isSome then getAttr c k else getAttr b k := by
  induction b with
  | nil =>
    cases h : getAttr c k <;> simp [mergeAttrs, getAttr, h]
  | cons kv rest ih =>
    by_cases h1 : (getAttr c kv.1).isSome <;> by_cases h2 : kv.1 = k
    · subst h2
      simp [mergeAttrs, getAttr, h1, ih]
    · simp [mergeAttrs, getAttr, h1, h2, ih]
    · subst h2
      simp only [Option.isSome_iff_exists, not_exists] at h1
      have hnone : getAttr c kv.1 = none := by
        cases h : getAttr c kv.1 with
        | none => rfl
        | some v => exact absurd h (h1 v)
      simp [mergeAttrs, getAttr, hnone]
    · simp [mergeAttrs, getAttr, h1, h2, ih]

lemma mem_overlay_elim (df1 df2 : GeoCollection) (f : Feature)
    (hf : f ∈ (overlay df1 df2).features) :
    ∃ bf ∈ df1.features, ∃ cf ∈ df2.features,
      geomIntersect bf.geom cf.geom = some f.geom ∧
      f.attrs = mergeAttrs bf.attrs cf.attrs := by
  simp only [overlay, List.mem_flatMap, List.mem_filterMap] at hf
  obtain ⟨bf, hbf, cf, hcf, hmap⟩ := hf
  rw [Option.map_eq_some'] at hmap
  obtain ⟨g, hg, hfe⟩ := hmap
  subst hfe
  exact ⟨bf, hbf, cf, hcf, hg, rfl⟩

lemma geomIntersect_within (g h r : Geometry) (hi : geomIntersect g h = some r) :
    (∀ q : Pt, memGeom q r = true → memGeom q g = true) ∧
    (∀ q : Pt, memGeom q r = true → memGeom q h = true) := by
  cases g with
  | point p =>
    cases h with
    | point p' =>
      simp only [geomIntersect] at hi
      split_ifs at hi with hpq
      obtain rfl : Geometry.point p = r := Option.some.inj hi
      subst hpq
      exact ⟨fun q hq => hq, fun q hq => hq⟩
    | polygon vs =>
      simp only [geomIntersect] at hi
      split_ifs at hi with hin
      obtain rfl : Geometry.point p = r := Option.some.inj hi
      refine ⟨fun q hq => hq, fun q hq => ?_⟩
      obtain rfl : q = p := of_decide_eq_true hq
      exact hin
  | polygon vs =>
    cases h with
    | point p =>
      simp only [geomIntersect] at hi
      split_ifs at hi with hin
      obtain rfl : Geometry.point p = r := Option.some.inj hi
      refine ⟨fun q hq => ?_, fun q hq => hq⟩
      obtain rfl : q = p := of_decide_eq_true hq
      exact hin
    | polygon ws => exact Option.noConfusion hi

lemma overlay_drops_nonintersecting (df1 df2 : GeoCollection) :
    overlay ⟨df1.crs, df1.features.filter fun bf =>
        df2.features.any fun cf => (geomIntersect bf.geom cf.geom).isSome⟩ df2 =
      overlay df1 df2 := by
  simp only [overlay, GeoCollection.mk.injEq, true_and]
  induction df1.features with
  | nil => rfl
  | cons bf t ih =>
    by_cases hbf : (df2.features.any fun cf => (geomIntersect bf.geom cf.geom).isSome) = true
    · simp [List.filter_cons, hbf, ih]
    · have hall : ∀ cf ∈ df2.features, geomIntersect bf.geom cf.geom = none := by
        rw [Bool.not_eq_true, List.any_eq_false] at hbf
        intro cf hcf
        exact Option.not_isSome_iff_eq_none.mp (hbf cf hcf)
      have hnil : (df2.features.filterMap fun cf =>
          (geomIntersect bf.geom cf.geom).map
            fun g => (⟨g, mergeAttrs bf.attrs cf.attrs⟩ : Feature)) = [] := by
        rw [List.filterMap_eq_nil_iff]
        intro cf hcf
        rw [hall cf hcf]
        rfl
      simp [List.filter_cons, hbf, hnil, ih]

/-- Claim C3: every feature of the overlay of a base (asset) collection
with a clip (risk) collection comes from one base feature and one clip
feature whose geometries intersect, and its attribute fields are the
union of both features' fields with the clip-side value winning on a name
collision: a lookup finds the clip value whenever the clip side has the
field, and the base value otherwise. -/
theorem overlay_attrs_clip_wins (df1 df2 : GeoCollection) (f : Feature)
    (hf : f ∈ (overlay df1 df2).features) :
    ∃ bf ∈ df1.features, ∃ cf ∈ df2.features,
      geomIntersect bf.geom cf.geom = some f.geom ∧
      ∀ k : String, getAttr f.attrs k =
        if (getAttr cf.attrs k).isSome then getAttr cf.attrs k else getAttr bf.attrs k := by
  obtain ⟨bf, hbf, cf, hcf, hgi, hattr⟩ := mem_overlay_elim df1 df2 f hf
  exact ⟨bf, hbf, cf, hcf, hgi, fun k => by rw [hattr, getAttr_mergeAttrs]⟩

/-- Witness for C3: one asset point inside one risk square; the colliding
`name` field resolves to the risk-side value in the merged feature. -/
theorem overlay_attrs_clip_wins_witness :
    ∃ bf ∈ (⟨"EPSG:4326", [⟨.point (2, 2), [("id", .num 1), ("name", .str "asset")]⟩]⟩ :
        GeoCollection).features,
    ∃ cf ∈ (⟨"EPSG:4326", [⟨.polygon [(0, 0), (0, 10), (10, 10), (10, 0)],
        [("name", .str "risk"), ("lvl", .num 3)]⟩]⟩ : GeoCollection).features,
      geomIntersect bf.geom cf.geom =
        some (Feature.geom ⟨.point (2, 2),
          [("id", .num 1), ("name", .str "risk"), ("lvl", .num 3)]⟩) ∧
      ∀ k : String,
        getAttr (Feature.attrs ⟨.point (2, 2),
            [("id", .num 1), ("name", .str "risk"), ("lvl", .num 3)]⟩) k =
          if (getAttr cf.attrs k).isSome then getAttr cf.attrs k else getAttr bf.attrs k := by
  refine overlay_attrs_clip_wins _ _
    ⟨.point (2, 2), [("id", .num 1), ("name", .str "risk"), ("lvl", .num 3)]⟩ ?_
  show _ ∈ [(⟨.point (2, 2),
    [("id", .num 1), ("name", .str "risk"), ("lvl", .num 3)]⟩ : Feature)]
  exact List.mem_singleton_self _

/-- Claim C4: in the overlay of a base collection with a clip collection
in the same CRS, every output feature's geometry is contained in the
geometry of some base feature and of some clip feature; and base features
with no intersecting counterpart in the clip collection contribute
nothing — filtering them away leaves the overlay unchanged, so the result
holds only at-risk features, never the whole base layer. -/
theorem overlay_only_at_risk (df1 df2 : GeoCollection) (_hcrs : df1.crs = df2.crs) :
    (∀ f ∈ (overlay df1 df2).features,
      (∃ bf ∈ df1.features, ∀ q : Pt, memGeom q f.geom = true → memGeom q bf.geom = true) ∧
      (∃ cf ∈ df2.features, ∀ q : Pt, memGeom q f.geom = true → memGeom q cf.geom = true)) ∧
    overlay ⟨df1.crs, df1.features.filter fun bf =>
        df2.features.any fun cf => (geomIntersect bf.geom cf.geom).isSome⟩ df2 =
      overlay df1 df2 := by
  refine ⟨?_, overlay_drops_nonintersecting df1 df2⟩
  intro f hf
  obtain ⟨bf, hbf, cf, hcf, hgi, -⟩ := mem_overlay_elim df1 df2 f hf
  obtain ⟨h1, h2⟩ := geomIntersect_within bf.geom cf.geom f.geom hgi
  exact ⟨⟨bf, hbf, h1⟩, ⟨cf, hcf, h2⟩⟩

/-- Witness for C4: two asset points (one inside, one outside the risk
square) against the square, in a shared CRS. -/
theorem overlay_only_at_risk_witness :
    (⟨"EPSG:4326", [⟨.point (2, 2), []⟩, ⟨.point (20, 20), []⟩]⟩ : GeoCollection).crs =
      (⟨"EPSG:4326", [⟨.polygon [(0, 0), (0, 10), (10, 10), (10, 0)], []⟩]⟩ :
        GeoCollection).crs ∧
    ((∀ f ∈ (overlay ⟨"EPSG:4326", [⟨.point (2, 2), []⟩, ⟨.point (20, 20), []⟩]⟩
          ⟨"EPSG:4326", [⟨.polygon [(0, 0), (0, 10), (10, 10), (10, 0)], []⟩]⟩).features,
      (∃ bf ∈ (⟨"EPSG:4326", [⟨.point (2, 2), []⟩, ⟨.point (20, 20), []⟩]⟩ :
          GeoCollection).features,
        ∀ q : Pt, memGeom q f.geom = true → memGeom q bf.geom = true) ∧
      (∃ cf ∈ (⟨"EPSG:4326", [⟨.polygon [(0, 0), (0, 10), (10, 10), (10, 0)], []⟩]⟩ :
          GeoCollection).features,
        ∀ q : Pt, memGeom q f.geom = true → memGeom q cf.geom = true)) ∧
    overlay ⟨(⟨"EPSG:4326", [⟨.point (2, 2), []⟩, ⟨.point (20, 20), []⟩]⟩ :
        GeoCollection).crs,
        (⟨"EPSG:4326", [⟨.point (2, 2), []⟩, ⟨.point (20, 20), []⟩]⟩ :
          GeoCollection).features.filter fun bf =>
          (⟨"EPSG:4326", [⟨.polygon [(0, 0), (0, 10), (10, 10), (10, 0)], []⟩]⟩ :
            GeoCollection).features.any fun cf =>
            (geomIntersect bf.geom cf.geom).isSome⟩
        ⟨"EPSG:4326", [⟨.polygon [(0, 0), (0, 10), (10, 10), (10, 0)], []⟩]⟩ =
      overlay ⟨"EPSG:4326", [⟨.point (2, 2), []⟩, ⟨.point (20, 20), []⟩]⟩
        ⟨"EPSG:4326", [⟨.polygon [(0, 0), (0, 10), (10, 10), (10, 0)], []⟩]⟩) :=
  ⟨rfl, overlay_only_at_risk
    ⟨"EPSG:4326", [⟨.point (2, 2), []⟩, ⟨.point (20, 20), []⟩]⟩
    ⟨"EPSG:4326", [⟨.polygon [(0, 0), (0, 10), (10, 10), (10, 0)], []⟩]⟩ rfl⟩

/-- Claim C6: CRS normalization is idempotent — normalizing a collection
already carrying the target CRS (the risk layer's CRS at the call site,
src/main.py:112) returns the collection unchanged, coordinates included,
with its CRS tag equal to the target, whatever projection math the
library would otherwise apply. -/
theorem toCrs_noop_when_matching (reproject : Pt → Pt) (gc : GeoCollection)
    (target : String) (h : gc.crs = target) :
    toCrs reproject gc target = gc ∧ (toCrs reproject gc target).crs = target := by
  have hid : toCrs reproject gc target = gc := by simp [toCrs, h]
  exact ⟨hid, by rw [hid, h]⟩

/-- Witness for C6: a collection tagged "EPSG:4326" is untouched by
normalization to "EPSG:4326" even under a projection map that moves every
point. -/
theorem toCrs_noop_when_matching_witness :
    toCrs (fun p => (p.1 + 1, p.2)) ⟨"EPSG:4326", [⟨.point (1, 2), []⟩]⟩ "EPSG:4326" =
        ⟨"EPSG:4326", [⟨.point (1, 2), []⟩]⟩ ∧
      (toCrs (fun p => (p.1 + 1, p.2)) ⟨"EPSG:4326", [⟨.point (1, 2), []⟩]⟩
        "EPSG:4326").crs = "EPSG:4326" :=
  toCrs_noop_when_matching (fun p => (p.1 + 1, p.2))
    ⟨"EPSG:4326", [⟨.point (1, 2), []⟩]⟩ "EPSG:4326" rfl

lemma decodePt_encodePt (p : Pt) : decodePt (encodePt p) = some p := rfl

lemma mapM_decodePt (vs : List Pt) : (vs.map encodePt).mapM decodePt = some vs := by
  induction vs with
  | nil => rfl
  | cons v t ih =>
    rw [List.map_cons, List.mapM_cons, ih, decodePt_encodePt]
    rfl

lemma decodeGeometry_encodeGeometry (g : Geometry) :
    decodeGeometry (encodeGeometry g) = some g := by
  cases g with
  | point p => rfl
  | polygon vs =>
    show ((vs.map encodePt).mapM decodePt).map Geometry.polygon = some (.polygon vs)
    rw [mapM_decodePt]
    rfl

lemma decodeFeature_encodeFeature (f : Feature) :
    decodeFeature (encodeFeature f) = some f := by
  show (decodeGeometry (encodeGeometry f.geom)).map (⟨·, f.attrs⟩) = some f
  rw [decodeGeometry_encodeGeometry]
  rfl

lemma mapM_decodeFeature (l : List Feature) :
    (l.map encodeFeature).mapM decodeFeature = some l := by
  induction l with
  | nil => rfl
  | cons f t ih =>
    rw [List.map_cons, List.mapM_cons, ih, decodeFeature_encodeFeature]
    rfl

/-- Claim C7: the writer/loader round-trip — serializing any collection
as a GeoJSON FeatureCollection and reloading the document recovers the
feature list exactly (hence the same feature count and the same attribute
key/value pairs), under the format's default CRS tag. -/
theorem save_load_roundtrip (gdf : GeoCollection) :
    load_geojson (save_geojson gdf) = some ⟨"EPSG:4326", gdf.features⟩ := by
  show ((gdf.features.map encodeFeature).mapM decodeFeature).map
      ((⟨"EPSG:4326", ·⟩ : List Feature → GeoCollection)) = _
  rw [mapM_decodeFeature]
  rfl

/-- The risk layer of the spec's end-to-end scenario: one square polygon
[(0,0),(0,10),(10,10),(10,0)] in CRS "EPSG:4326". -/
def demoRisk : GeoCollection :=
  ⟨"EPSG:4326", [⟨.polygon [(0, 0), (0, 10), (10, 10), (10, 0)], [("risk", .str "flood")]⟩]⟩

/-- The asset layer of the spec's end-to-end scenario: points (2,2) and
(8,8) inside the square and (20,20) outside, same CRS. -/
def demoAssets : GeoCollection :=
  ⟨"EPSG:4326", [⟨.point (2, 2), [("id", .num 1)]⟩,
                 ⟨.point (8, 8), [("id", .num 2)]⟩,
                 ⟨.point (20, 20), [("id", .num 3)]⟩]⟩

/-- The model file system of the end-to-end scenario: the two layer paths
hold the GeoJSON documents of the two collections. -/
def demoFs : String → Option Json := fun path =>
  if path = "risk.json" then some (save_geojson demoRisk)
  else if path = "assets.json" then some (save_geojson demoAssets)
  else none

/-- The configuration of the end-to-end scenario, with
`command_read_out = "At-risk properties: "`. -/
def demoConfig : Json :=
  .obj [("inputs", .arr [.obj
    [("risk_layer_path", .str "risk.json"),
     ("asset_layer_path", .str "assets.json"),
     ("command_read_out", .str "At-risk properties: "),
     ("plot_title", .str "out")]])]

/-- The at-risk collection the end-to-end scenario produces: the two
inside points, each carrying its own field and the risk layer's field. -/
def demoAtRisk : GeoCollection :=
  ⟨"EPSG:4326", [⟨.point (2, 2), [("id", .num 1), ("risk", .str "flood")]⟩,
                 ⟨.point (8, 8), [("id", .num 2), ("risk", .str "flood")]⟩]⟩

/-- Claim C8: on the spec's end-to-end scenario the run succeeds, the
written GeoJSON document reloads to exactly 2 features, and the printed
line is exactly "At-risk properties: 2" — whatever projection map the
library would use (the CRSs match, so it is never applied). -/
theorem end_to_end_two_at_risk (reproject : Pt → Pt) :
    ∃ o : Outcome, (mainRun demoFs reproject demoConfig).2 = .ok o ∧
      o.outputPath = "out.json" ∧
      o.line = "At-risk properties: 2" ∧
      (∃ gc : GeoCollection, load_geojson o.written = some gc ∧ gc.features.length = 2) ∧
      (mainRun demoFs reproject demoConfig).1 =
        [.load "risk.json", .load "assets.json", .write "out.json" o.written,
         .printLine o.line, .render "out"] :=
  ⟨⟨"out.json", save_geojson demoAtRisk, reportLine "At-risk properties: " 2,
    ⟨1, 3, 2, "out", "out"⟩⟩, rfl, rfl, rfl,
   ⟨⟨"EPSG:4326", demoAtRisk.features⟩, rfl, rfl⟩, rfl⟩

/-- Claim C9: whenever no asset feature intersects any risk feature (and
the CRSs already agree, so normalization is the identity), the at-risk
collection is empty, the report line is the prefix followed by "0", the
written document is a valid empty FeatureCollection that reloads as an
empty collection, and the render step is still reached and yields its
artifact on the empty at-risk layer. -/
theorem empty_intersection_run (riskC assetC : GeoCollection) (cmd title : String)
    (reproject : Pt → Pt) (hcrs : assetC.crs = riskC.crs)
    (hdisj : ∀ af ∈ assetC.features, ∀ rf ∈ riskC.features,
      geomIntersect af.geom rf.geom = none) :
    (overlay_maps riskC (toCrs reproject assetC riskC.crs)).features = [] ∧
    reportLine cmd (overlay_maps riskC (toCrs reproject assetC riskC.crs)).features.length =
      cmd ++ "0" ∧
    save_geojson (overlay_maps riskC (toCrs reproject assetC riskC.crs)) =
      .obj [("type", .str "FeatureCollection"), ("features", .arr [])] ∧
    load_geojson (save_geojson (overlay_maps riskC (toCrs reproject assetC riskC.crs))) =
      some ⟨"EPSG:4326", []⟩ ∧
    plot_and_save_properties riskC (toCrs reproject assetC riskC.crs)
        (overlay_maps riskC (toCrs reproject assetC riskC.crs)) title =
      ⟨riskC.features.length, assetC.features.length, 0, title, title⟩ := by
  have hnoop : toCrs reproject assetC riskC.crs = assetC := by simp [toCrs, hcrs]
  have hempty : (overlay_maps riskC (toCrs reproject assetC riskC.crs)).features = [] := by
    rw [hnoop]
    simp only [overlay_maps, overlay]
    rw [List.flatMap_eq_nil_iff]
    intro af haf
    rw [List.filterMap_eq_nil_iff]
    intro rf hrf
    rw [hdisj af haf rf hrf]
    rfl
  refine ⟨hempty, ?_, ?_, ?_, ?_⟩
  · rw [hempty]
    rfl
  · simp only [save_geojson, hempty]
    rfl
  · simp only [save_geojson, hempty]
    rfl
  · simp only [plot_and_save_properties]
    rw [hempty, hnoop]
    rfl

/-- Witness for C9: a single asset point at (20,20), outside the risk
square, in the shared CRS "EPSG:4326". -/
theorem empty_intersection_run_witness :
    (∀ af ∈ (⟨"EPSG:4326", [⟨.point (20, 20), []⟩]⟩ : GeoCollection).features,
      ∀ rf ∈ (⟨"EPSG:4326",
          [⟨.polygon [(0, 0), (0, 10), (10, 10), (10, 0)], []⟩]⟩ : GeoCollection).features,
        geomIntersect af.geom rf.geom = none) ∧
    ((overlay_maps ⟨"EPSG:4326", [⟨.polygon [(0, 0), (0, 10), (10, 10), (10, 0)], []⟩]⟩
        (toCrs (fun p => p) ⟨"EPSG:4326", [⟨.point (20, 20), []⟩]⟩
          (⟨"EPSG:4326", [⟨.polygon [(0, 0), (0, 10), (10, 10), (10, 0)], []⟩]⟩ :
            GeoCollection).crs)).features = [] ∧
      reportLine "At-risk properties: "
          (overlay_maps ⟨"EPSG:4326", [⟨.polygon [(0, 0), (0, 10), (10, 10), (10, 0)], []⟩]⟩
            (toCrs (fun p => p) ⟨"EPSG:4326", [⟨.point (20, 20), []⟩]⟩
              (⟨"EPSG:4326", [⟨.polygon [(0, 0), (0, 10), (10, 10), (10, 0)], []⟩]⟩ :
                GeoCollection).crs)).features.length =
        "At-risk properties: " ++ "0" ∧
      save_geojson (overlay_maps
          ⟨"EPSG:4326", [⟨.polygon [(0, 0), (0, 10), (10, 10), (10, 0)], []⟩]⟩
          (toCrs (fun p => p) ⟨"EPSG:4326", [⟨.point (20, 20), []⟩]⟩
            (⟨"EPSG:4326", [⟨.polygon [(0, 0), (0, 10), (10, 10), (10, 0)], []⟩]⟩ :
              GeoCollection).crs)) =
        .obj [("type", .str "FeatureCollection"), ("features", .arr [])] ∧
      load_geojson (save_geojson (overlay_maps
          ⟨"EPSG:4326", [⟨.polygon [(0, 0), (0, 10), (10, 10), (10, 0)], []⟩]⟩
          (toCrs (fun p => p) ⟨"EPSG:4326", [⟨.point (20, 20), []⟩]⟩
            (⟨"EPSG:4326", [⟨.polygon [(0, 0), (0, 10), (10, 10), (10, 0)], []⟩]⟩ :
              GeoCollection).crs))) =
        some ⟨"EPSG:4326", []⟩ ∧
      plot_and_save_properties
          ⟨"EPSG:4326", [⟨.polygon [(0, 0), (0, 10), (10, 10), (10, 0)], []⟩]⟩
          (toCrs (fun p => p) ⟨"EPSG:4326", [⟨.point (20, 20), []⟩]⟩
            (⟨"EPSG:4326", [⟨.polygon [(0, 0), (0, 10), (10, 10), (10, 0)], []⟩]⟩ :
              GeoCollection).crs)
          (overlay_maps ⟨"EPSG:4326", [⟨.polygon [(0, 0), (0, 10), (10, 10), (10, 0)], []⟩]⟩
            (toCrs (fun p => p) ⟨"EPSG:4326", [⟨.point (20, 20), []⟩]⟩
              (⟨"EPSG:4326", [⟨.polygon [(0, 0), (0, 10), (10, 10), (10, 0)], []⟩]⟩ :
                GeoCollection).crs)) "plot" =
        ⟨(⟨"EPSG:4326", [⟨.polygon [(0, 0), (0, 10), (10, 10), (10, 0)], []⟩]⟩ :
            GeoCollection).features.length,
         (⟨"EPSG:4326", [⟨.point (20, 20), []⟩]⟩ : GeoCollection).features.length,
         0, "plot", "plot"⟩) :=
  ⟨by decide, empty_intersection_run
    ⟨"EPSG:4326", [⟨.polygon [(0, 0), (0, 10), (10, 10), (10, 0)], []⟩]⟩
    ⟨"EPSG:4326", [⟨.point (20, 20), []⟩]⟩ "At-risk properties: " "plot"
    (fun p => p) rfl (by decide)⟩

end Geomapper
